import Mathlib

/-!
Shallow embedding of `metar_decoder.py` (repository KK_metar) in Lean 4.

The decoder turns a raw METAR report string into a `DecodedMetar` record of
plain-English field descriptions.  Python strings are modelled as Lean
`String` at the interface and `List Char` inside the matchers; Python
regular expressions (all used with `re.match`, i.e. anchored at the start
only, with an explicit `$` where the source has one) are hand-compiled to
deterministic character-list matchers.  In each case where the regex engine
could in principle backtrack, a comment justifies why the deterministic
translation decides the same language: the alternatives are literal,
fixed-width and mutually exclusive on the first differing character.

Python float arithmetic is modelled with exact rationals.  The only
partial operation of the source, the division `num / denom` in
`parse_visibility` (which raises `ZeroDivisionError` when the denominator
digit group is zero), is modelled by returning `none`; everything else is
total, so `decode_metar : String → Option DecodedMetar` returns `none`
exactly where the Python function raises.
-/

namespace KKMetar

/-- Output record of the decoder, mirroring the `DecodedMetar` dataclass;
every field defaults to the empty string. -/
structure DecodedMetar where
  airport : String := ""
  observation_time : String := ""
  wind : String := ""
  visibility : String := ""
  weather : String := ""
  clouds : String := ""
  temperature : String := ""
  dewpoint : String := ""
  altimeter : String := ""
  flight_category : String := ""
  raw_metar : String := ""
  summary : String := ""
deriving DecidableEq, Repr

/-! ## Python string primitives: strip, split, lower, capitalize, `in` -/

/-- Whitespace as recognised by Python `str.strip`, `str.split` and the
regex class `\s` on `str` patterns: the CPython `Py_UNICODE_ISSPACE` set,
namely U+0009..U+000D, U+001C..U+001F, U+0020, U+0085, U+00A0, U+1680,
U+2000..U+200A, U+2028, U+2029, U+202F, U+205F and U+3000. -/
def wsB (c : Char) : Bool :=
  (9 ≤ c.toNat && c.toNat ≤ 13) || (28 ≤ c.toNat && c.toNat ≤ 32) ||
  c.toNat == 133 || c.toNat == 160 || c.toNat == 5760 ||
  (8192 ≤ c.toNat && c.toNat ≤ 8202) ||
  c.toNat == 8232 || c.toNat == 8233 || c.toNat == 8239 ||
  c.toNat == 8287 || c.toNat == 12288

/-- `str.strip()` on the character list: drop whitespace from both ends. -/
def stripChars (l : List Char) : List Char :=
  ((l.dropWhile wsB).reverse.dropWhile wsB).reverse

/-- Python `s.strip()`. -/
def pyStrip (s : String) : String := ⟨stripChars s.data⟩

/-- Worker for `str.split()` with no argument: split on whitespace runs,
discarding empty pieces.  `cur` is the current word accumulated in
reverse. -/
def wordsAux : List Char → List Char → List String
  | [], cur => if cur.isEmpty then [] else [⟨cur.reverse⟩]
  | c :: rest, cur =>
    if wsB c then
      if cur.isEmpty then wordsAux rest [] else ⟨cur.reverse⟩ :: wordsAux rest []
    else wordsAux rest (c :: cur)

/-- Python `s.split()` (no separator argument). -/
def pySplit (s : String) : List String := wordsAux s.data []

/-- Python `s.lower()` (ASCII; all characters appearing in this program are
ASCII letters or characters unaffected by lowering). -/
def pyLower (s : String) : String := ⟨s.data.map Char.toLower⟩

/-- Python `s.capitalize()`: first character uppercased, the rest
lowercased. -/
def pyCapitalize (s : String) : String :=
  match s.data with
  | [] => ""
  | c :: r => ⟨c.toUpper :: r.map Char.toLower⟩

/-- Substring test on character lists (Python `sub in s`): `hasPrefixC l p`
holds when `p` is a prefix of `l`. -/
def hasPrefixC : List Char → List Char → Bool
  | _, [] => true
  | [], _ :: _ => false
  | c :: r, d :: s => c == d && hasPrefixC r s

/-- `containsC l p` holds when `p` occurs contiguously inside `l`. -/
def containsC : List Char → List Char → Bool
  | l, p =>
    hasPrefixC l p ||
      match l with
      | [] => false
      | _ :: r => containsC r p

/-- Python `sub in s` for strings. -/
def containsS (s sub : String) : Bool := containsC s.data sub.data

/-- Python `' '.join(tokens)`. -/
def joinSpace (l : List String) : String := String.intercalate " " l

/-! ## Numeric helpers -/

/-- Python 3 `round` applied to the exact rational `n / d` (`d > 0`):
round half to even.  `Int.ediv`/`Int.emod` give the floor and the
nonnegative remainder for a positive divisor, so `2 * r` against `d`
compares the fractional part with one half. -/
def pyRound (n : ℤ) (d : ℕ) : ℤ :=
  let q : ℤ := n.ediv d
  let r : ℤ := n.emod d
  if 2 * r < d then q
  else if (d : ℤ) < 2 * r then q + 1
  else if q % 2 = 0 then q else q + 1

/-- `knots_to_mph`: `round(knots * 1.15078)`, computed exactly as the
rounding of the rational `knots * 115078 / 100000` (for the inputs
reachable here the Python float computation agrees with the exact
rational). -/
def knots_to_mph (knots : ℕ) : ℤ := pyRound ((knots : ℤ) * 115078) 100000

/-- `celsius_to_fahrenheit`: `round(celsius * 9/5 + 32)`, computed exactly
as the rounding of `(celsius * 9 + 32 * 5) / 5`. -/
def celsius_to_fahrenheit (celsius : ℤ) : ℤ := pyRound (celsius * 9 + 32 * 5) 5

/-- Numeric value of a digit character. -/
def digitVal (c : Char) : ℕ := c.toNat - 48

/-- Numeric value of a digit string, as computed by Python `int`. -/
def digitsVal (l : List Char) : ℕ := l.foldl (fun a c => a * 10 + digitVal c) 0

/-- Python `'{:,}'.format`: worker on the reversed digit list, inserting a
comma after every three digits. -/
def commaGroup : List Char → List Char
  | a :: b :: c :: d :: rest => a :: b :: c :: ',' :: commaGroup (d :: rest)
  | l => l

/-- Python `'{:,}'.format(n)` for a natural number. -/
def commaFmt (n : ℕ) : String := ⟨(commaGroup (toString n).data.reverse).reverse⟩

/-- Zero-padded two-digit rendering, for the fractional part of the
altimeter value. -/
def pad2 (n : ℕ) : String := if n < 10 then "0" ++ toString n else toString n

/-- Left-pad a string with zeros to length `k`. -/
def padZeros (k : ℕ) (s : String) : String :=
  ⟨List.replicate (k - s.data.length) '0' ++ s.data⟩

/-- Python `f"{x}"` rendering of the nonnegative float `x = N / D`
(`D > 0`) produced by `whole + num / denom` in `parse_visibility`.  The
smallest `k` with `D ∣ N * 10 ^ k` is located (so the decimal has no
trailing zero); for a value with a terminating decimal expansion the
result is the exact shortest decimal, which coincides with CPython float
repr for every value reachable in this program.  For a non-terminating
expansion (never exercised by any theorem below) it falls back to a
17-digit expansion, an approximation of float repr. -/
def visFloatStr (N D : ℕ) : String :=
  match (List.range 21).find? (fun k => D ∣ N * 10 ^ k) with
  | some k =>
    if k = 0 then toString (N / D) ++ ".0"
    else
      toString (N * 10 ^ k / D / 10 ^ k) ++ "." ++
        padZeros k (toString (N * 10 ^ k / D % 10 ^ k))
  | none =>
    toString (N / D) ++ "." ++ padZeros 17 (toString (N * 10 ^ 17 / D % 10 ^ 17))

/-! ## Compass table and wind -/

/-- The `COMPASS_DIRECTIONS` table: half-open sectors with their compass
names, in source order. -/
def COMPASS_DIRECTIONS : List ((ℚ × ℚ) × String) :=
  [((0, 22.5), "north"),
   ((22.5, 67.5), "northeast"),
   ((67.5, 112.5), "east"),
   ((112.5, 157.5), "southeast"),
   ((157.5, 202.5), "south"),
   ((202.5, 247.5), "southwest"),
   ((247.5, 292.5), "west"),
   ((292.5, 337.5), "northwest"),
   ((337.5, 360), "north")]

/-- The lookup loop of `degrees_to_direction`: return the name of the first
sector `(low, high)` with `low <= degrees < high`. -/
def lookupRange : List ((ℚ × ℚ) × String) → ℚ → Option String
  | [], _ => none
  | ((lo, hi), dir) :: rest, d =>
    if lo ≤ d ∧ d < hi then some dir else lookupRange rest d

/-- `degrees_to_direction`: compass name of the first matching sector, or
the fallback `"variable"` when no sector contains the value. -/
def degrees_to_direction (degrees : ℚ) : String :=
  (lookupRange COMPASS_DIRECTIONS degrees).getD "variable"

/-! ## Wind parsing

The wind regexes `VRB(\d{2,3})KT`, `(\d{3})(\d{2,3})(G(\d{2,3}))?KT` and
the decode-loop gate `(VRB|\d{3})\d{2,3}(G\d{2,3})?KT` are prefix matches
(`re.match` without `$`).  The quantifier `\d{2,3}` is translated by a
greedy take of a third digit when present: in every position where the
group occurs it is followed by the literal `K` or `G`, so a two-digit
match requires the third character to be a non-digit and a three-digit
match requires it to be a digit — the alternatives are mutually exclusive
and no backtracking is possible. -/

/-- Prefix test for the literal `KT`. -/
def ktAt : List Char → Bool
  | 'K' :: 'T' :: _ => true
  | _ => false

/-- Match `\d{2,3}` greedily, returning the numeric value and the rest. -/
def speedMatch : List Char → Option (ℕ × List Char)
  | a :: b :: c :: rest =>
    if a.isDigit && b.isDigit then
      if c.isDigit then some (digitsVal [a, b, c], rest)
      else some (digitsVal [a, b], c :: rest)
    else none
  | a :: b :: rest =>
    if a.isDigit && b.isDigit then some (digitsVal [a, b], rest) else none
  | _ => none

/-- Match the optional gust group `(G\d{2,3})?`, returning the gust value
(if the group matched) and the rest.  When `G` is present but not followed
by two digits the optional group matches empty, exactly as the regex
backtracks. -/
def gustMatch : List Char → Option ℕ × List Char
  | 'G' :: rest =>
    match speedMatch rest with
    | some (g, r) => (some g, r)
    | none => (none, 'G' :: rest)
  | l => (none, l)

/-- Match `VRB(\d{2,3})KT` at the start, returning the speed. -/
def vrbMatch : List Char → Option ℕ
  | 'V' :: 'R' :: 'B' :: rest =>
    match speedMatch rest with
    | some (sp, r) => if ktAt r then some sp else none
    | none => none
  | _ => none

/-- Match `(\d{3})(\d{2,3})(G(\d{2,3}))?KT` at the start, returning
direction, speed and optional gust. -/
def stdMatch (l : List Char) : Option (ℕ × ℕ × Option ℕ) :=
  match l with
  | a :: b :: c :: rest =>
    if a.isDigit && b.isDigit && c.isDigit then
      match speedMatch rest with
      | some (sp, r) =>
        let (g, r2) := gustMatch r
        if ktAt r2 then some (digitsVal [a, b, c], sp, g) else none
      | none => none
    else none
  | _ => none

/-- `parse_wind`.  The gust clause reproduces Python `if gust_kt:`, which
is falsy both for `None` and for a zero gust value. -/
def parse_wind (s : String) : String :=
  if s = "" then "Wind information not available"
  else
    match vrbMatch s.data with
    | some sp =>
      if sp = 0 then "Calm winds"
      else "Variable wind at " ++ toString (knots_to_mph sp) ++ " mph"
    | none =>
      match stdMatch s.data with
      | some (dir, sp, gust) =>
        if sp = 0 then "Calm winds"
        else
          let result := "Wind from the " ++ degrees_to_direction (dir : ℚ) ++
            " at " ++ toString (knots_to_mph sp) ++ " mph"
          match gust with
          | some g =>
            if g = 0 then result
            else result ++ ", gusting to " ++ toString (knots_to_mph g) ++ " mph"
          | none => result
      | none =>
        if s = "00000KT" then "Calm winds" else "Wind: " ++ s

/-! ## Visibility parsing

`parse_visibility` receives the space-join of the collected visibility
tokens.  Its regexes are prefix matches.  In `(\d+)SM` and
`((\d+)\s+)?(\d+)/(\d+)SM` every `\d+` is translated as the maximal digit
run: a shorter match would leave the next character a digit, which can
never match the following literal (`S`, `/`) or `\s`, so the greedy
maximal run is the only possible match.  The optional whole-number group
is present exactly when the first digit run is followed by whitespace
(otherwise `\s+` fails and the regex must restart the no-whole
alternative at position 0, which requires the next character to be `/`).
The division `num / denom` raises `ZeroDivisionError` when the
denominator group is zero, modelled by `none`. -/

/-- Prefix test for the literal `SM`. -/
def smAt : List Char → Bool
  | 'S' :: 'M' :: _ => true
  | _ => false

/-- Match `(\d+)SM` at the start, returning the mileage. -/
def smMatch (l : List Char) : Option ℕ :=
  let ds := l.takeWhile Char.isDigit
  if ds.isEmpty then none
  else if smAt (l.dropWhile Char.isDigit) then some (digitsVal ds) else none

/-- Match `(\d+)/(\d+)SM` (used after the optional whole part), returning
numerator and denominator. -/
def fracCore (l : List Char) : Option (ℕ × ℕ) :=
  let ns := l.takeWhile Char.isDigit
  if ns.isEmpty then none
  else
    match l.dropWhile Char.isDigit with
    | '/' :: r2 =>
      let ds := r2.takeWhile Char.isDigit
      if ds.isEmpty then none
      else if smAt (r2.dropWhile Char.isDigit) then some (digitsVal ns, digitsVal ds)
      else none
    | _ => none

/-- Match `((\d+)\s+)?(\d+)/(\d+)SM` at the start, returning
`(whole, num, denom)` with `whole = 0` when the optional group is
absent, as in the source (`int(...) if ... else 0`). -/
def fracMatch (l : List Char) : Option (ℕ × ℕ × ℕ) :=
  let ws := l.takeWhile Char.isDigit
  if ws.isEmpty then none
  else
    match l.dropWhile Char.isDigit with
    | '/' :: r2 =>
      let ds := r2.takeWhile Char.isDigit
      if ds.isEmpty then none
      else if smAt (r2.dropWhile Char.isDigit) then some (0, digitsVal ws, digitsVal ds)
      else none
    | c :: r2 =>
      if wsB c then
        match fracCore ((c :: r2).dropWhile wsB) with
        | some (n, d) => some (digitsVal ws, n, d)
        | none => none
      else none
    | [] => none

/-- Match `(\d{4})` at the start (four digits; further characters,
including digits, may follow). -/
def meterMatch : List Char → Option ℕ
  | a :: b :: c :: d :: _ =>
    if a.isDigit && b.isDigit && c.isDigit && d.isDigit then
      some (digitsVal [a, b, c, d])
    else none
  | _ => none

/-- The qualitative tier text for a whole-mile visibility. -/
def smText (miles : ℕ) : String :=
  if miles ≥ 10 then "Visibility 10 miles or more (excellent)"
  else if miles ≥ 6 then "Visibility " ++ toString miles ++ " miles (good)"
  else if miles ≥ 3 then "Visibility " ++ toString miles ++ " miles (moderate)"
  else "Visibility " ++ toString miles ++ " miles (poor)"

/-- Python `f"{x:.1f}"` for the exact rational `meters / 1609.34`:
round half to even at one decimal, then print one digit after the point.
(As with `visFloatStr`, exact-rational rounding stands in for the float
computation; no theorem below depends on a meters-form input.) -/
def meterText (meters : ℕ) : String :=
  let t : ℤ := pyRound ((meters : ℤ) * 100 * 10) 160934
  toString (t.ediv 10) ++ "." ++ toString (t.emod 10)

/-- The overflow threshold of CPython integer true division `num / denom`
(`denom > 0`): the quotient is converted to a correctly rounded IEEE-754
double, and `OverflowError` is raised exactly when the rounded value
reaches `2 ^ 1024`, i.e. when the exact quotient is at least the midpoint
`2 ^ 1024 - 2 ^ 970` between the largest finite double
`(2 ^ 53 - 1) * 2 ^ 971` and `2 ^ 1024` (the tie at the midpoint rounds
to the even candidate `2 ^ 1024` and overflows).  So division fails iff
`num / denom ≥ 2 ^ 970 * (2 ^ 54 - 1)`.  (The first factor is written
`(2 ^ 194) ^ 5 = 2 ^ 970` so that evaluation stays below the
elaborator's exponent threshold.) -/
def floatOverflowNum : ℕ := (2 ^ 194) ^ 5 * (2 ^ 54 - 1)

/-- `parse_visibility`; `none` models the two exceptions of the
fraction-branch division `num / denom`: `ZeroDivisionError` on a zero
denominator group, and `OverflowError` when the quotient exceeds the
double range (the digit groups of the pattern are unbounded).  The
remaining float arithmetic of this branch cannot fail on the strings the
decoder passes in: the whole-number group can only come from a collected
four-digit token, so `float(whole)` and the final addition stay in
range.  (A direct call with an enormous whole group would overflow in
Python too; no theorem below exercises that path.) -/
def parse_visibility (s : String) : Option String :=
  if s = "" then some ""
  else
    match smMatch s.data with
    | some miles => some (smText miles)
    | none =>
      match fracMatch s.data with
      | some (whole, num, denom) =>
        if denom = 0 then none
        else if floatOverflowNum * denom ≤ num then none
        else some ("Visibility " ++ visFloatStr (whole * denom + num) denom ++
          " miles (reduced)")
      | none =>
        match meterMatch s.data with
        | some meters => some ("Visibility " ++ meterText meters ++ " miles")
        | none => some ("Visibility: " ++ s)

/-- The zero-denominator condition of the fractional branch: true exactly
when `parse_visibility` would reach the fraction branch with a zero
denominator group and hence divide by zero. -/
def fracZeroDenom (s : String) : Bool :=
  match smMatch s.data with
  | some _ => false
  | none =>
    match fracMatch s.data with
    | some (_, _, denom) => denom = 0
    | none => false

/-- The overflow condition of the fractional branch: true exactly when
`parse_visibility` would reach the fraction branch with a nonzero
denominator and a quotient beyond the double range, where Python raises
`OverflowError`. -/
def fracOverflow (s : String) : Bool :=
  match smMatch s.data with
  | some _ => false
  | none =>
    match fracMatch s.data with
    | some (_, num, denom) => decide (denom ≠ 0) && decide (floatOverflowNum * denom ≤ num)
    | none => false

/-! ## Weather parsing -/

/-- The `WEATHER_CODES` table restricted to two-character keys, as a
lookup function (the one-character keys `-` and `+` are handled by
`weatherChunk1` below, matching `remaining[:2]` on a one-character
remainder). -/
def lookupWeatherCode (a b : Char) : Option String :=
  if a == 'V' && b == 'C' then some "in the vicinity"
  else if a == 'M' && b == 'I' then some "shallow"
  else if a == 'P' && b == 'R' then some "partial"
  else if a == 'B' && b == 'C' then some "patches of"
  else if a == 'D' && b == 'R' then some "low drifting"
  else if a == 'B' && b == 'L' then some "blowing"
  else if a == 'S' && b == 'H' then some "showers"
  else if a == 'T' && b == 'S' then some "thunderstorm"
  else if a == 'F' && b == 'Z' then some "freezing"
  else if a == 'D' && b == 'Z' then some "drizzle"
  else if a == 'R' && b == 'A' then some "rain"
  else if a == 'S' && b == 'N' then some "snow"
  else if a == 'S' && b == 'G' then some "snow grains"
  else if a == 'I' && b == 'C' then some "ice crystals"
  else if a == 'P' && b == 'L' then some "ice pellets"
  else if a == 'G' && b == 'R' then some "hail"
  else if a == 'G' && b == 'S' then some "small hail"
  else if a == 'U' && b == 'P' then some "unknown precipitation"
  else if a == 'B' && b == 'R' then some "mist"
  else if a == 'F' && b == 'G' then some "fog"
  else if a == 'F' && b == 'U' then some "smoke"
  else if a == 'V' && b == 'A' then some "volcanic ash"
  else if a == 'D' && b == 'U' then some "widespread dust"
  else if a == 'S' && b == 'A' then some "sand"
  else if a == 'H' && b == 'Z' then some "haze"
  else if a == 'P' && b == 'Y' then some "spray"
  else if a == 'P' && b == 'O' then some "dust whirls"
  else if a == 'S' && b == 'Q' then some "squalls"
  else if a == 'F' && b == 'C' then some "funnel cloud"
  else if a == 'S' && b == 'S' then some "sandstorm"
  else if a == 'D' && b == 'S' then some "duststorm"
  else none

/-- `WEATHER_CODES` lookup of a one-character remainder (`remaining[:2]`
on a single character): only the intensity keys have length one. -/
def weatherChunk1 (c : Char) : Option String :=
  if c == '-' then some "light"
  else if c == '+' then some "heavy"
  else none

/-- The `while remaining:` loop of `parse_weather`: take two characters,
translate them when they are a known code, always advance by two. -/
def weatherChunks : List Char → List String
  | a :: b :: rest =>
    match lookupWeatherCode a b with
    | some w => w :: weatherChunks rest
    | none => weatherChunks rest
  | [c] =>
    match weatherChunk1 c with
    | some w => [w]
    | none => []
  | [] => []

/-- Decode one weather token into its phrase, or `none` when no part was
recognised. -/
def weatherDesc (t : String) : Option String :=
  let l := t.data
  let (p1, l1) : List String × List Char :=
    match l with
    | '-' :: r => (["light"], r)
    | '+' :: r => (["heavy"], r)
    | _ => ([], l)
  let (p2, l2) : List String × List Char :=
    match l1 with
    | 'V' :: 'C' :: r => (["in the vicinity"], r)
    | _ => ([], l1)
  let parts := p1 ++ p2 ++ weatherChunks l2
  if parts.isEmpty then none else some (String.intercalate " " parts)

/-- `parse_weather`. -/
def parse_weather (weather_tokens : List String) : String :=
  if weather_tokens.isEmpty then ""
  else
    let descriptions := weather_tokens.filterMap weatherDesc
    if descriptions.isEmpty then ""
    else "Weather: " ++ String.intercalate ", " descriptions

/-! ## Cloud parsing -/

/-- The `CLOUD_CODES` lookup for the layer cover codes (`SKC`/`CLR` are
handled by the early return in `parse_clouds` and never reach the
lookup). -/
def cloudCoverText (cover : String) : String :=
  if cover = "FEW" then "few clouds"
  else if cover = "SCT" then "scattered clouds"
  else if cover = "BKN" then "broken clouds"
  else if cover = "OVC" then "overcast"
  else if cover = "VV" then "vertical visibility"
  else cover

/-- Strip the layer cover code `(FEW|SCT|BKN|OVC|VV)` from the front.
All alternatives are distinct literals, none a prefix of another, so the
match is deterministic. -/
def coverStrip : List Char → Option (String × List Char)
  | 'F' :: 'E' :: 'W' :: r => some ("FEW", r)
  | 'S' :: 'C' :: 'T' :: r => some ("SCT", r)
  | 'B' :: 'K' :: 'N' :: r => some ("BKN", r)
  | 'O' :: 'V' :: 'C' :: r => some ("OVC", r)
  | 'V' :: 'V' :: r => some ("VV", r)
  | _ => none

/-- Match the optional convective suffix `(CB|TCU)?` at the start,
returning the annotation appended to the layer description. -/
def cloudTypeSuffix : List Char → String
  | 'C' :: 'B' :: _ => " (cumulonimbus - thunderstorm clouds)"
  | 'T' :: 'C' :: 'U' :: _ => " (towering cumulus)"
  | _ => ""

/-- Match `(FEW|SCT|BKN|OVC|VV)(\d{3})(CB|TCU)?` at the start (a prefix
match: trailing characters are ignored) and build the layer
description. -/
def cloudLayerDesc (l : List Char) : Option String :=
  match coverStrip l with
  | some (cover, r) =>
    match r with
    | a :: b :: c :: rest =>
      if a.isDigit && b.isDigit && c.isDigit then
        some (cloudCoverText cover ++ " at " ++
          commaFmt (digitsVal [a, b, c] * 100) ++ " feet" ++ cloudTypeSuffix rest)
      else none
    | _ => none
  | none => none

/-- The token loop of `parse_clouds`: an `SKC`/`CLR` token returns
immediately, discarding any descriptions already accumulated. -/
def cloudsGo : List String → List String → String
  | [], descs =>
    if descs.isEmpty then "" else pyCapitalize (String.intercalate ", " descs)
  | t :: rest, descs =>
    if t = "SKC" || t = "CLR" then "Clear skies"
    else
      match cloudLayerDesc t.data with
      | some d => cloudsGo rest (descs ++ [d])
      | none => cloudsGo rest descs

/-- `parse_clouds`. -/
def parse_clouds (cloud_tokens : List String) : String :=
  if cloud_tokens.isEmpty then "Sky conditions not reported"
  else cloudsGo cloud_tokens []

/-! ## Temperature / dewpoint and altimeter -/

/-- Translation of the degree-sign character as it actually appears in
the source file: the bytes are the UTF-8 encoding of U+C9F8 (a Hangul
syllable), a mojibake of the degree sign U+00B0.  It is reproduced
verbatim so that the embedded strings are byte-faithful to the source. -/
def degChar : Char := Char.ofNat 51704

/-- Format one temperature value, `f"{f}<deg>F ({c}<deg>C)"` with the
source file mojibake character for the degree sign. -/
def tempText (c : ℤ) : String :=
  toString (celsius_to_fahrenheit c) ++ degChar.toString ++ "F (" ++
    toString c ++ degChar.toString ++ "C)"

/-- Match `(M)?(\d{2})/(M)?(\d{2})` at the start (prefix match),
returning the signed Celsius temperature and dewpoint. -/
def tempMatch (l : List Char) : Option (ℤ × ℤ) :=
  let (tneg, l1) : Bool × List Char :=
    match l with
    | 'M' :: r => (true, r)
    | _ => (false, l)
  match l1 with
  | a :: b :: '/' :: r2 =>
    if a.isDigit && b.isDigit then
      let (dneg, l2) : Bool × List Char :=
        match r2 with
        | 'M' :: r => (true, r)
        | _ => (false, r2)
      match l2 with
      | c :: d :: _ =>
        if c.isDigit && d.isDigit then
          let t : ℤ := digitsVal [a, b]
          let dw : ℤ := digitsVal [c, d]
          some ((if tneg then -t else t), (if dneg then -dw else dw))
        else none
      | _ => none
    else none
  | _ => none

/-- `parse_temp_dewpoint`, returning the `(temperature, dewpoint)`
pair. -/
def parse_temp_dewpoint (temp_str : String) : String × String :=
  if temp_str = "" then ("", "")
  else
    match tempMatch temp_str.data with
    | some (t, d) => (tempText t, tempText d)
    | none => ("", "")

/-- Match `A(\d{4})` at the start, returning the value. -/
def aMatch : List Char → Option ℕ
  | 'A' :: a :: b :: c :: d :: _ =>
    if a.isDigit && b.isDigit && c.isDigit && d.isDigit then
      some (digitsVal [a, b, c, d])
    else none
  | _ => none

/-- Match `Q(\d{4})` at the start, returning the value. -/
def qMatch : List Char → Option ℕ
  | 'Q' :: a :: b :: c :: d :: _ =>
    if a.isDigit && b.isDigit && c.isDigit && d.isDigit then
      some (digitsVal [a, b, c, d])
    else none
  | _ => none

/-- `parse_altimeter`.  `f"{value/100:.2f}"` of a four-digit value always
prints the exact two-decimal expansion, rendered here with integer
division. -/
def parse_altimeter (alt_str : String) : String :=
  if alt_str = "" then ""
  else
    match aMatch alt_str.data with
    | some v => toString (v / 100) ++ "." ++ pad2 (v % 100) ++ " inches of mercury"
    | none =>
      match qMatch alt_str.data with
      | some v => toString v ++ " hectopascals"
      | none => alt_str

/-! ## Summary composition -/

/-- An apostrophe character, used in the summary opening clause. -/
def apos : String := (Char.ofNat 39).toString

/-- `generate_summary`: opening sky clause chosen by substring checks on
the lowercased cloud description, then conditional clauses, joined with
spaces and a trailing period. -/
def generate_summary (decoded : DecodedMetar) : String :=
  let cl := pyLower decoded.clouds
  let sky :=
    if containsS cl "clear" then "It" ++ apos ++ "s a clear day"
    else if containsS cl "overcast" then "The sky is overcast"
    else if containsS cl "broken" then "The sky is mostly cloudy"
    else if containsS cl "scattered" then "There are some clouds in the sky"
    else if containsS cl "few" then "There are a few clouds"
    else "Current conditions"
  let parts := [sky] ++
    (if decoded.temperature ≠ "" then
      ["with a temperature of " ++ decoded.temperature] else []) ++
    (if containsS (pyLower decoded.wind) "calm" then ["and calm winds"]
     else if decoded.wind ≠ "" then ["and " ++ pyLower decoded.wind] else []) ++
    (if decoded.weather ≠ "" then [". " ++ decoded.weather] else []) ++
    (if decoded.visibility ≠ "" ∧
        (containsS (pyLower decoded.visibility) "poor" ||
         containsS (pyLower decoded.visibility) "reduced" ||
         containsS (pyLower decoded.visibility) "moderate") then
      [". " ++ decoded.visibility] else [])
  String.intercalate " " parts ++ "."

/-! ## Token classification (the second loop of `decode_metar`)

The weather-phenomenon pattern
`^[-+]?(VC)?(MI|...|FZ)?(DZ|...|DS)+$` is a full match.  Every
alternative is a fixed one- or two-character literal; the intensity
characters are not letters, `VC` is neither a descriptor nor a final
code, and the descriptor and final alternations are disjoint literal
sets, so the optional groups are forced wherever their literals are
present and the translation below decides the same language as the
backtracking engine. -/

/-- Membership of a two-character code in the final
precipitation/obscuration/other alternation of the classifier regex. -/
def lastCode (a b : Char) : Bool :=
  (a == 'D' && b == 'Z') || (a == 'R' && b == 'A') || (a == 'S' && b == 'N') ||
  (a == 'S' && b == 'G') || (a == 'I' && b == 'C') || (a == 'P' && b == 'L') ||
  (a == 'G' && b == 'R') || (a == 'G' && b == 'S') || (a == 'U' && b == 'P') ||
  (a == 'B' && b == 'R') || (a == 'F' && b == 'G') || (a == 'F' && b == 'U') ||
  (a == 'V' && b == 'A') || (a == 'D' && b == 'U') || (a == 'S' && b == 'A') ||
  (a == 'H' && b == 'Z') || (a == 'P' && b == 'Y') || (a == 'P' && b == 'O') ||
  (a == 'S' && b == 'Q') || (a == 'F' && b == 'C') || (a == 'S' && b == 'S') ||
  (a == 'D' && b == 'S')

/-- Membership in the descriptor alternation `(MI|PR|BC|DR|BL|SH|TS|FZ)`. -/
def descCode (a b : Char) : Bool :=
  (a == 'M' && b == 'I') || (a == 'P' && b == 'R') || (a == 'B' && b == 'C') ||
  (a == 'D' && b == 'R') || (a == 'B' && b == 'L') || (a == 'S' && b == 'H') ||
  (a == 'T' && b == 'S') || (a == 'F' && b == 'Z')

/-- `(DZ|...|DS)*`: the remainder splits into two-character codes of the
final alternation. -/
def lastStar : List Char → Bool
  | [] => true
  | a :: b :: rest => lastCode a b && lastStar rest
  | _ => false

/-- `(DZ|...|DS)+`. -/
def lastPlus (l : List Char) : Bool := !l.isEmpty && lastStar l

/-- `(MI|...|FZ)?(DZ|...|DS)+$` on the remainder after the prefixes:
either no descriptor, or one descriptor code then at least one final
code. -/
def weatherTail (l : List Char) : Bool :=
  lastPlus l ||
    match l with
    | a :: b :: rest => descCode a b && lastPlus rest
    | _ => false

/-- Strip the optional `[-+]?` intensity prefix. -/
def stripIntensity : List Char → List Char
  | c :: r => if c == '-' || c == '+' then r else c :: r
  | [] => []

/-- Strip the optional `(VC)?` vicinity marker. -/
def stripVC : List Char → List Char
  | 'V' :: 'C' :: r => r
  | l => l

/-- Full-match test of the weather-phenomenon classifier regex. -/
def isWeatherTok (l : List Char) : Bool :=
  weatherTail (stripVC (stripIntensity l))

/-- Full-match test of `^(SKC|CLR|FEW|SCT|BKN|OVC|VV)\d{0,3}(CB|TCU)?$`.
The cover alternatives are distinct non-prefix literals; after the
(necessarily maximal) digit run of length at most three, only the empty
string, `CB` or `TCU` may remain. -/
def isCloudTok (l : List Char) : Bool :=
  let tail (r : List Char) : Bool :=
    let ds := r.takeWhile Char.isDigit
    decide (ds.length ≤ 3) &&
      (match r.dropWhile Char.isDigit with
       | [] => true
       | ['C', 'B'] => true
       | ['T', 'C', 'U'] => true
       | _ => false)
  match l with
  | 'S' :: 'K' :: 'C' :: r => tail r
  | 'C' :: 'L' :: 'R' :: r => tail r
  | 'F' :: 'E' :: 'W' :: r => tail r
  | 'S' :: 'C' :: 'T' :: r => tail r
  | 'B' :: 'K' :: 'N' :: r => tail r
  | 'O' :: 'V' :: 'C' :: r => tail r
  | 'V' :: 'V' :: r => tail r
  | _ => false

/-- Full-match test of `^M?\d{2}/M?\d{2}$`. -/
def isTempTok (l : List Char) : Bool :=
  let l1 := match l with
    | 'M' :: r => r
    | _ => l
  match l1 with
  | a :: b :: '/' :: r2 =>
    a.isDigit && b.isDigit &&
      (match (match r2 with | 'M' :: r => r | _ => r2) with
       | [c, d] => c.isDigit && d.isDigit
       | _ => false)
  | _ => false

/-- Full-match test of `^A\d{4}$`. -/
def isAltATok : List Char → Bool
  | ['A', a, b, c, d] => a.isDigit && b.isDigit && c.isDigit && d.isDigit
  | _ => false

/-- Full-match test of `^Q\d{4}$`. -/
def isAltQTok : List Char → Bool
  | ['Q', a, b, c, d] => a.isDigit && b.isDigit && c.isDigit && d.isDigit
  | _ => false

/-- Accumulated state of the classification loop: collected weather and
cloud tokens, and the last-assigned temperature, dewpoint and altimeter
descriptions. -/
structure CState where
  wToks : List String := []
  cToks : List String := []
  temp : String := ""
  dew : String := ""
  alt : String := ""
deriving DecidableEq, Repr

/-- The classification loop: each token is tried against the grammars in
the `elif` order of the source; a `RMK` token stops the loop; unmatched
tokens are skipped. -/
def classify : List String → CState → CState
  | [], st => st
  | t :: rest, st =>
    if isWeatherTok t.data then classify rest { st with wToks := st.wToks ++ [t] }
    else if isCloudTok t.data then classify rest { st with cToks := st.cToks ++ [t] }
    else if isTempTok t.data then
      classify rest { st with temp := (parse_temp_dewpoint t).1,
                              dew := (parse_temp_dewpoint t).2 }
    else if isAltATok t.data || isAltQTok t.data then
      classify rest { st with alt := parse_altimeter t }
    else if t = "RMK" then st
    else classify rest st

/-! ## Positional stages of `decode_metar` -/

/-- Discard a leading `METAR` or `SPECI` report-type marker. -/
def dropReportType (ts : List String) : List String :=
  match ts with
  | t :: rest => if t = "METAR" ∨ t = "SPECI" then rest else ts
  | [] => []

/-- Consume the station identifier: the next token unconditionally, or
the empty string when no token remains. -/
def takeAirport : List String → String × List String
  | [] => ("", [])
  | t :: rest => (t, rest)

/-- Prefix test of the observation-time pattern `\d{6}Z`. -/
def timeGate : List Char → Bool
  | a :: b :: c :: d :: e :: f :: 'Z' :: _ =>
    a.isDigit && b.isDigit && c.isDigit && d.isDigit && e.isDigit && f.isDigit
  | _ => false

/-- Build `f"Day {day} at {hour}:{minute} UTC"` from the six digit
characters of the time token. -/
def obsText : List Char → String
  | a :: b :: c :: d :: e :: f :: _ =>
    "Day " ++ String.mk [a, b] ++ " at " ++ String.mk [c, d] ++ ":" ++
      String.mk [e, f] ++ " UTC"
  | _ => ""

/-- Consume the observation-time token when it matches. -/
def takeObsTime : List String → String × List String
  | [] => ("", [])
  | t :: rest => if timeGate t.data then (obsText t.data, rest) else ("", t :: rest)

/-- Skip an `AUTO` indicator token. -/
def dropAuto : List String → List String
  | [] => []
  | t :: rest => if t = "AUTO" then rest else t :: rest

/-- Prefix test of the wind gate `(VRB|\d{3})\d{2,3}(G\d{2,3})?KT`. -/
def windGate (l : List Char) : Bool :=
  let tail (r : List Char) : Bool :=
    match speedMatch r with
    | some (_, r1) =>
      let (_, r2) := gustMatch r1
      ktAt r2
    | none => false
  match l with
  | 'V' :: 'R' :: 'B' :: r => tail r
  | a :: b :: c :: r => a.isDigit && b.isDigit && c.isDigit && tail r
  | _ => false

/-- Prefix test of the wind-variability pattern `\d{3}V\d{3}`. -/
def windVarGate : List Char → Bool
  | a :: b :: c :: 'V' :: d :: e :: f :: _ =>
    a.isDigit && b.isDigit && c.isDigit && d.isDigit && e.isDigit && f.isDigit
  | _ => false

/-- Consume the wind token (decoding it) and a following wind-variability
token. -/
def takeWind : List String → String × List String
  | [] => ("", [])
  | t :: rest =>
    if windGate t.data then
      let rest2 :=
        match rest with
        | u :: r2 => if windVarGate u.data then r2 else u :: r2
        | [] => []
      (parse_wind t, rest2)
    else ("", t :: rest)

/-- The visibility-collection gate:
`\d+SM` or `\d+/\d+SM` or (`\d{4}` and the token length is four). -/
def visGate (l : List Char) : Bool :=
  (let ds := l.takeWhile Char.isDigit
   !ds.isEmpty && smAt (l.dropWhile Char.isDigit)) ||
  (match fracCore l with
   | some _ => true
   | none => false) ||
  ((match meterMatch l with
    | some _ => true
    | none => false) && decide (l.length = 4))

/-- The `while` loop collecting consecutive visibility tokens. -/
def spanVis : List String → List String × List String
  | [] => ([], [])
  | t :: rest =>
    if visGate t.data then (t :: (spanVis rest).1, (spanVis rest).2)
    else ([], t :: rest)

/-- Result of the stages following the station identifier. -/
structure TailParse where
  obsTime : String := ""
  wind : String := ""
  visToks : List String := []
  cst : CState := {}
deriving DecidableEq, Repr

/-- The visibility span followed by the classification loop. -/
def visClassify (ts : List String) : List String × CState :=
  ((spanVis ts).1, classify (spanVis ts).2 {})

/-- The wind stage followed by `visClassify`. -/
def windVis (ts : List String) : String × List String × CState :=
  ((takeWind ts).1, visClassify (takeWind ts).2)

/-- The `AUTO` skip followed by `windVis`. -/
def autoWindVis (ts : List String) : String × List String × CState :=
  windVis (dropAuto ts)

/-- All stages after the station identifier. -/
def parseTail (ts : List String) : TailParse :=
  { obsTime := (takeObsTime ts).1,
    wind := (autoWindVis (takeObsTime ts).2).1,
    visToks := (autoWindVis (takeObsTime ts).2).2.1,
    cst := (autoWindVis (takeObsTime ts).2).2.2 }

/-- Assemble the final record from the station identifier and the tail
parse: visibility decoding (fallible), weather and cloud decoding, and
the generated summary.  The `raw_metar` field is attached by
`decode_metar`. -/
def assemble (airport : String) (tp : TailParse) : Option DecodedMetar :=
  let vis? : Option String :=
    if tp.visToks.isEmpty then some "" else parse_visibility (joinSpace tp.visToks)
  match vis? with
  | none => none
  | some vis =>
    let d : DecodedMetar :=
      { airport := airport, observation_time := tp.obsTime, wind := tp.wind,
        visibility := vis, weather := parse_weather tp.cst.wToks,
        clouds := parse_clouds tp.cst.cToks, temperature := tp.cst.temp,
        dewpoint := tp.cst.dew, altimeter := tp.cst.alt }
    some { d with summary := generate_summary d }

/-- Decode a token list: the early return on an empty token list skips
the summary generation, as in the source. -/
def decodeTokens (tokens : List String) : Option DecodedMetar :=
  if tokens.isEmpty then some {}
  else
    assemble (takeAirport (dropReportType tokens)).1
      (parseTail (takeAirport (dropReportType tokens)).2)

/-- `decode_metar`.  The record is built from
`raw_metar.strip().split()`; `none` models the `ZeroDivisionError` of the
fractional-visibility branch — the only exception the source can
raise. -/
def decode_metar (raw_metar : String) : Option DecodedMetar :=
  (decodeTokens (pySplit (pyStrip raw_metar))).map
    (fun d => { d with raw_metar := pyStrip raw_metar })

/-- The space-join of the visibility tokens that `decode_metar` collects
from an input string (the argument `parse_visibility` receives whenever
the collected group is nonempty). -/
def visGroup (s : String) : String :=
  joinSpace (parseTail (takeAirport (dropReportType (pySplit (pyStrip s)))).2).visToks

/-- The token sequence up to (excluding) the first remarks marker. -/
def truncRMK (ts : List String) : List String :=
  ts.takeWhile (fun t => !(t == "RMK"))

/-- A concatenation of descriptor codes: the string splits into
two-character codes of the descriptor alternation. -/
def descStar : List Char → Bool
  | [] => true
  | a :: b :: rest => descCode a b && descStar rest
  | _ => false

/-- The tokens following the station identifier (the input of the
observation-time stage). -/
def stationRest (tokens : List String) : List String :=
  (takeAirport (dropReportType tokens)).2

/-- The input of the wind stage: the tokens after the observation time
and the `AUTO` skip. -/
def windInput (tokens : List String) : List String :=
  dropAuto (takeObsTime (stationRest tokens)).2

/-- The input of the visibility-collection loop. -/
def visInput (tokens : List String) : List String :=
  (takeWind (windInput tokens)).2

/-- The input of the classification loop. -/
def classifyInput (tokens : List String) : List String :=
  (spanVis (visInput tokens)).2

/-! ## Helper lemmas -/

theorem dropWhile_dropWhile {α : Type} (p : α → Bool) (l : List α) :
    (l.dropWhile p).dropWhile p = l.dropWhile p := by
  induction l with
  | nil => rfl
  | cons c r ih =>
    by_cases h : p c
    · simp [List.dropWhile_cons, h, ih]
    · simp [List.dropWhile_cons, h]

theorem dropWhile_eq_self_of_prefix {α : Type} (p : α → Bool) {l m : List α}
    (hpre : l <+: m) (hm : m.dropWhile p = m) : l.dropWhile p = l := by
  cases l with
  | nil => rfl
  | cons c r =>
    obtain ⟨t, rfl⟩ := hpre
    rw [List.cons_append] at hm
    by_cases h : p c
    · exfalso
      rw [List.dropWhile_cons_of_pos h] at hm
      have hlen := (List.dropWhile_sublist (l := r ++ t) p).length_le
      rw [hm] at hlen
      simp at hlen
    · simp [List.dropWhile_cons, h]

theorem stripChars_idem (l : List Char) : stripChars (stripChars l) = stripChars l := by
  have hfront : (stripChars l).dropWhile wsB = stripChars l := by
    apply dropWhile_eq_self_of_prefix wsB (m := l.dropWhile wsB)
    · have hsuf : (l.dropWhile wsB).reverse.dropWhile wsB <:+ (l.dropWhile wsB).reverse :=
        List.dropWhile_suffix wsB
      have := List.reverse_prefix.mpr hsuf
      simpa [stripChars] using this
    · exact dropWhile_dropWhile wsB l
  have hback : (stripChars l).reverse.dropWhile wsB = (stripChars l).reverse := by
    have hrev : (stripChars l).reverse = (l.dropWhile wsB).reverse.dropWhile wsB := by
      simp [stripChars]
    rw [hrev, dropWhile_dropWhile]
  show (((stripChars l).dropWhile wsB).reverse.dropWhile wsB).reverse = stripChars l
  rw [hfront, hback, List.reverse_reverse]

theorem pyStrip_idem (s : String) : pyStrip (pyStrip s) = pyStrip s := by
  show (⟨stripChars (stripChars s.data)⟩ : String) = ⟨stripChars s.data⟩
  rw [stripChars_idem]

theorem assemble_eq_none (a : String) (tp : TailParse)
    (h : assemble a tp = none) :
    parse_visibility (joinSpace tp.visToks) = none := by
  unfold assemble at h
  by_cases he : tp.visToks.isEmpty
  · simp [he] at h
  · simp only [he, if_false, Bool.false_eq_true] at h
    cases hp : parse_visibility (joinSpace tp.visToks) with
    | none => rfl
    | some v => rw [hp] at h; simp at h

theorem parse_visibility_none (v : String) (h : parse_visibility v = none) :
    fracZeroDenom v = true ∨ fracOverflow v = true := by
  unfold parse_visibility at h
  unfold fracZeroDenom fracOverflow
  by_cases h0 : v = ""
  · simp [h0] at h
  · rw [if_neg h0] at h
    cases hs : smMatch v.data with
    | some m => simp [hs] at h
    | none =>
      cases hf : fracMatch v.data with
      | some t =>
        obtain ⟨w, n, dn⟩ := t
        simp only [hs, hf] at h ⊢
        by_cases hdn : dn = 0
        · left; simp [hdn]
        · rw [if_neg hdn] at h
          by_cases hov : floatOverflowNum * dn ≤ n
          · right; simp [hdn, hov]
          · rw [if_neg hov] at h; simp at h
      | none =>
        cases hm : meterMatch v.data <;> simp [hs, hf, hm] at h

theorem degrees360_variable : degrees_to_direction ((360 : ℕ) : ℚ) = "variable" := by
  simp only [degrees_to_direction, COMPASS_DIRECTIONS, lookupRange]
  norm_num

theorem parse_wind_36010 :
    parse_wind "36010KT" = "Wind from the variable at 12 mph" := by
  have step : parse_wind "36010KT" =
      "Wind from the " ++ degrees_to_direction ((360 : ℕ) : ℚ) ++ " at " ++
        toString (knots_to_mph 10) ++ " mph" := rfl
  rw [step, degrees360_variable]
  decide

/-! ## Claims -/

/-- C1 (counterexample): on the input `"KJFK 1/0SM"` the decoder reaches
the fractional-visibility branch with denominator digit group `0` and
divides by zero (`ZeroDivisionError`, modelled by `none`), so
`decode_metar` does not return a record for every input string. -/
theorem c1_counterexample : decode_metar "KJFK 1/0SM" = none := by decide

set_option maxRecDepth 8000 in
/-- C1 (amended): for every input string, `decode_metar` either returns a
record, or the space-joined visibility group matched the fractional
pattern and the division `num / denom` failed — with a zero denominator
digit group (`ZeroDivisionError`) or with a quotient beyond the double
range (`OverflowError`, reachable because the numerator digit group is
unbounded: a token of 400 nines over 1 passes the collection gate, as the
second conjunct evaluates).  These divisions are the only failure points
of the decoder. -/
theorem c1_amended :
    (∀ s : String, (decode_metar s).isSome = true ∨
      fracZeroDenom (visGroup s) = true ∨ fracOverflow (visGroup s) = true) ∧
    decode_metar ⟨'K' :: 'J' :: 'F' :: 'K' :: ' ' ::
      (List.replicate 400 '9' ++ ['/', '1', 'S', 'M'])⟩ = none := by
  constructor
  · intro s
    cases hd : decodeTokens (pySplit (pyStrip s)) with
    | some d =>
      left
      unfold decode_metar
      rw [hd]
      rfl
    | none =>
      right
      unfold decodeTokens at hd
      by_cases he : (pySplit (pyStrip s)).isEmpty
      · rw [if_pos he] at hd; simp at hd
      · rw [if_neg he] at hd
        exact parse_visibility_none _ (assemble_eq_none _ _ hd)
  · decide

/-- C2: re-decoding the `raw_metar` field of a successfully decoded
report yields the identical record: the decoder is a pure function of the
stripped input and stripping is idempotent. -/
theorem c2_roundtrip (s : String) (d : DecodedMetar)
    (h : decode_metar s = some d) : decode_metar d.raw_metar = some d := by
  unfold decode_metar at h ⊢
  cases hd : decodeTokens (pySplit (pyStrip s)) with
  | none => rw [hd] at h; simp at h
  | some d0 =>
    rw [hd] at h
    simp only [Option.map_some'] at h
    obtain rfl := Option.some.inj h
    dsimp only
    rw [pyStrip_idem, hd]
    rfl

/-- C2 (witness): the round-trip theorem applied to the input
`"KJFK"`. -/
theorem c2_roundtrip_witness :
    decode_metar (({ airport := "KJFK", clouds := "Sky conditions not reported",
                     raw_metar := "KJFK",
                     summary := "Current conditions." } : DecodedMetar).raw_metar) =
      some { airport := "KJFK", clouds := "Sky conditions not reported",
             raw_metar := "KJFK", summary := "Current conditions." } :=
  c2_roundtrip "KJFK" _ (by decide)

/-- C4: the knots-to-mph conversion (`round(knots * 1.15078)`, rounding
to the nearest integer with ties to even) maps 0, 5, 10, 15, 20, 25, 30,
100 knots to 0, 6, 12, 17, 23, 29, 35, 115 mph respectively. -/
theorem c4_knots_to_mph_values :
    knots_to_mph 0 = 0 ∧ knots_to_mph 5 = 6 ∧ knots_to_mph 10 = 12 ∧
    knots_to_mph 15 = 17 ∧ knots_to_mph 20 = 23 ∧ knots_to_mph 25 = 29 ∧
    knots_to_mph 30 = 35 ∧ knots_to_mph 100 = 115 := by decide

/-- C9: the compass table contains no half-open sector including 360, so
`degrees_to_direction(360)` falls through to `"variable"`, and the
well-formed wind token `36010KT` (the standard METAR encoding of a north
wind) is described as coming from "the variable". -/
theorem c9_direction_360_variable :
    degrees_to_direction ((360 : ℕ) : ℚ) = "variable" ∧
    parse_wind "36010KT" = "Wind from the variable at 12 mph" :=
  ⟨degrees360_variable, parse_wind_36010⟩

/-- C3 (counterexample): `36010KT` is a well-formed fixed-direction wind
token (three-digit direction, speed, `KT`), yet its decoded direction
text is `"variable"`, which is not one of the eight compass points — the
claim fails for direction values of 360 and above. -/
theorem c3_counterexample :
    parse_wind "36010KT" = "Wind from the variable at 12 mph" ∧
    "variable" ∉ (["north", "northeast", "east", "southeast", "south",
      "southwest", "west", "northwest"] : List String) :=
  ⟨parse_wind_36010, by decide⟩

/-- C3 (amended): for every integer direction in `[0, 360)` the decoded
direction is one of the eight compass points, determined by the half-open
22.5-degree sector table: 0 maps to north, the boundary value 22.5 maps
to northeast, 359 maps to north, and every direction in `[338, 360)`
wraps to north. -/
theorem c3_amended :
    (∀ n : ℕ, n < 360 → degrees_to_direction (n : ℚ) ∈
      (["north", "northeast", "east", "southeast", "south", "southwest",
        "west", "northwest"] : List String)) ∧
    degrees_to_direction ((0 : ℕ) : ℚ) = "north" ∧
    degrees_to_direction (22.5 : ℚ) = "northeast" ∧
    degrees_to_direction ((359 : ℕ) : ℚ) = "north" ∧
    (∀ n : ℕ, 338 ≤ n → n < 360 → degrees_to_direction (n : ℚ) = "north") := by
  refine ⟨?_, ?_, ?_, ?_, ?_⟩
  · intro n hn
    have h0 : (0 : ℚ) ≤ (n : ℚ) := by positivity
    have h360 : (n : ℚ) < 360 := by exact_mod_cast hn
    simp only [degrees_to_direction, COMPASS_DIRECTIONS, lookupRange]
    split_ifs with h1 h2 h3 h4 h5 h6 h7 h8 h9
    · decide
    · decide
    · decide
    · decide
    · decide
    · decide
    · decide
    · decide
    · decide
    · exfalso
      push_neg at h1 h2 h3 h4 h5 h6 h7 h8 h9
      have e1 := h1 h0
      have e2 := h2 e1
      have e3 := h3 e2
      have e4 := h4 e3
      have e5 := h5 e4
      have e6 := h6 e5
      have e7 := h7 e6
      have e8 := h8 e7
      have e9 := h9 e8
      linarith
  · simp only [degrees_to_direction, COMPASS_DIRECTIONS, lookupRange]
    norm_num
  · simp only [degrees_to_direction, COMPASS_DIRECTIONS, lookupRange]
    norm_num
  · simp only [degrees_to_direction, COMPASS_DIRECTIONS, lookupRange]
    norm_num
  · intro n hlo hhi
    have hc1 : (338 : ℚ) ≤ (n : ℚ) := by exact_mod_cast hlo
    have hc2 : (n : ℚ) < 360 := by exact_mod_cast hhi
    simp only [degrees_to_direction, COMPASS_DIRECTIONS, lookupRange]
    rw [if_neg (by rintro ⟨-, hb⟩; linarith), if_neg (by rintro ⟨-, hb⟩; linarith),
      if_neg (by rintro ⟨-, hb⟩; linarith), if_neg (by rintro ⟨-, hb⟩; linarith),
      if_neg (by rintro ⟨-, hb⟩; linarith), if_neg (by rintro ⟨-, hb⟩; linarith),
      if_neg (by rintro ⟨-, hb⟩; linarith), if_neg (by rintro ⟨-, hb⟩; linarith),
      if_pos ⟨by linarith, hc2⟩]
    rfl

/-- C3 (amended, witness): the amended theorem applied at directions 45
and 340. -/
theorem c3_amended_witness :
    degrees_to_direction ((45 : ℕ) : ℚ) ∈
      (["north", "northeast", "east", "southeast", "south", "southwest",
        "west", "northwest"] : List String) ∧
    degrees_to_direction ((340 : ℕ) : ℚ) = "north" :=
  ⟨c3_amended.1 45 (by norm_num), c3_amended.2.2.2.2 340 (by norm_num) (by norm_num)⟩

/-- C6 (code bug, evaluation): decoding
`"METAR KJFK 251200Z 00000KT 10SM CLR 20/10 A3000"` yields station
`KJFK`, `"Calm winds"`, excellent visibility, `"Clear skies"` and a
`30.00` altimeter as the claim says, but the temperature text carries the
mojibake character `째` (U+C9F8, the bytes of the source file) in place of
the degree sign `°` (U+00B0), so it does not contain `"68°F"` or
`"20°C"` — the repository tests assert the `°` forms and fail. -/
theorem c6_code_bug_eval :
    (decode_metar "METAR KJFK 251200Z 00000KT 10SM CLR 20/10 A3000").map
      (fun d => (d.airport, d.wind, d.visibility)) =
      some ("KJFK", "Calm winds", "Visibility 10 miles or more (excellent)") ∧
    (decode_metar "METAR KJFK 251200Z 00000KT 10SM CLR 20/10 A3000").map
      (fun d => (d.clouds, d.temperature, d.dewpoint, d.altimeter)) =
      some ("Clear skies", "68째F (20째C)", "50째F (10째C)",
        "30.00 inches of mercury") ∧
    containsS "68째F (20째C)" "68°F" = false ∧
    containsS "68째F (20째C)" "20°C" = false ∧
    containsS "68째F (20째C)" ("68" ++ degChar.toString ++ "F") = true ∧
    containsS (pyLower "Calm winds") "calm" = true ∧
    pyLower "Clear skies" = "clear skies" ∧
    containsS "Visibility 10 miles or more (excellent)" "excellent" = true ∧
    containsS "30.00 inches of mercury" "30.00" = true := by decide

/-- C7 (code bug, evaluation): in `"KJFK 1 1/2SM"` the mixed
statute-mile group is never decoded — the bare whole-number token `1`
matches none of the patterns of the visibility-collection loop, which
therefore stops before both tokens, and the decoded visibility is empty;
yet `parse_visibility` itself decodes the joined group `"1 1/2SM"` to the
claimed `1.5` miles labeled reduced, which is what the collection loop
was evidently meant to feed it. -/
theorem c7_code_bug_eval :
    (decode_metar "KJFK 1 1/2SM").map DecodedMetar.visibility = some "" ∧
    parse_visibility "1 1/2SM" = some "Visibility 1.5 miles (reduced)" := by decide

/-- C5 (counterexample): the non-empty report `"KJFK"` contains no cloud
token, yet its cloud field is `"Sky conditions not reported"`, not the
empty string. -/
theorem c5_counterexample :
    (decode_metar "KJFK").map DecodedMetar.clouds =
      some "Sky conditions not reported" ∧
    ("Sky conditions not reported" : String) ≠ "" := by decide

theorem decodeTokens_fields (tokens : List String) (d : DecodedMetar)
    (h1 : tokens ≠ []) (h2 : decodeTokens tokens = some d) :
    d.observation_time = (takeObsTime (stationRest tokens)).1 ∧
    d.wind = (takeWind (windInput tokens)).1 ∧
    d.weather = parse_weather (classify (classifyInput tokens) {}).wToks ∧
    d.clouds = parse_clouds (classify (classifyInput tokens) {}).cToks ∧
    d.temperature = (classify (classifyInput tokens) {}).temp ∧
    d.dewpoint = (classify (classifyInput tokens) {}).dew ∧
    d.altimeter = (classify (classifyInput tokens) {}).alt ∧
    d.flight_category = "" ∧
    ((spanVis (visInput tokens)).1 = [] → d.visibility = "") ∧
    (dropReportType tokens = [] → d.airport = "") := by
  unfold decodeTokens at h2
  rw [if_neg (by simpa using h1)] at h2
  unfold assemble at h2
  by_cases he : (parseTail (takeAirport (dropReportType tokens)).2).visToks.isEmpty
  · simp only [he, if_true] at h2
    obtain rfl := Option.some.inj h2
    refine ⟨rfl, rfl, rfl, rfl, rfl, rfl, rfl, rfl, fun _ => rfl, fun hz => ?_⟩
    show (takeAirport (dropReportType tokens)).1 = ""
    rw [hz]
    rfl
  · simp only [he, if_false, Bool.false_eq_true] at h2
    cases hp : parse_visibility
        (joinSpace (parseTail (takeAirport (dropReportType tokens)).2).visToks) with
    | none => rw [hp] at h2; simp at h2
    | some v =>
      rw [hp] at h2
      simp only [] at h2
      obtain rfl := Option.some.inj h2
      refine ⟨rfl, rfl, rfl, rfl, rfl, rfl, rfl, rfl, fun hvis => ?_, fun hz => ?_⟩
      · exfalso
        apply he
        show (parseTail (takeAirport (dropReportType tokens)).2).visToks.isEmpty = true
        have hv : (parseTail (takeAirport (dropReportType tokens)).2).visToks = [] := hvis
        rw [hv]
        rfl
      · show (takeAirport (dropReportType tokens)).1 = ""
        rw [hz]
        rfl

theorem takeObsTime_absent (ts : List String)
    (h : ∀ t, ts.head? = some t → timeGate t.data = false) :
    (takeObsTime ts).1 = "" := by
  cases ts with
  | nil => rfl
  | cons t r => simp [takeObsTime, h t rfl]

theorem takeWind_absent (ts : List String)
    (h : ∀ t, ts.head? = some t → windGate t.data = false) :
    (takeWind ts).1 = "" := by
  cases ts with
  | nil => rfl
  | cons t r => simp [takeWind, h t rfl]

theorem classify_no_weather (ts : List String) (st : CState)
    (h : ∀ t ∈ ts, isWeatherTok t.data = false) :
    (classify ts st).wToks = st.wToks := by
  induction ts generalizing st with
  | nil => rfl
  | cons t r ih =>
    have hrest : ∀ u ∈ r, isWeatherTok u.data = false :=
      fun u hu => h u (List.mem_cons_of_mem t hu)
    simp only [classify, h t (List.mem_cons_self t r), Bool.false_eq_true, if_false]
    split_ifs <;> first | rfl | exact ih _ hrest

theorem classify_no_cloud (ts : List String) (st : CState)
    (h : ∀ t ∈ ts, isCloudTok t.data = false) :
    (classify ts st).cToks = st.cToks := by
  induction ts generalizing st with
  | nil => rfl
  | cons t r ih =>
    have hrest : ∀ u ∈ r, isCloudTok u.data = false :=
      fun u hu => h u (List.mem_cons_of_mem t hu)
    simp only [classify, h t (List.mem_cons_self t r), Bool.false_eq_true, if_false]
    split_ifs <;> first | rfl | exact ih _ hrest

theorem classify_no_temp (ts : List String) (st : CState)
    (h : ∀ t ∈ ts, isTempTok t.data = false) :
    (classify ts st).temp = st.temp ∧ (classify ts st).dew = st.dew := by
  induction ts generalizing st with
  | nil => exact ⟨rfl, rfl⟩
  | cons t r ih =>
    have hrest : ∀ u ∈ r, isTempTok u.data = false :=
      fun u hu => h u (List.mem_cons_of_mem t hu)
    simp only [classify, h t (List.mem_cons_self t r), Bool.false_eq_true, if_false]
    split_ifs <;> first | exact ⟨rfl, rfl⟩ | exact ih _ hrest

theorem classify_no_alt (ts : List String) (st : CState)
    (h : ∀ t ∈ ts, (isAltATok t.data || isAltQTok t.data) = false) :
    (classify ts st).alt = st.alt := by
  induction ts generalizing st with
  | nil => rfl
  | cons t r ih =>
    have hrest : ∀ u ∈ r, (isAltATok u.data || isAltQTok u.data) = false :=
      fun u hu => h u (List.mem_cons_of_mem t hu)
    simp only [classify, h t (List.mem_cons_self t r), Bool.false_eq_true, if_false]
    split_ifs <;> first | rfl | exact ih _ hrest

/-- C5 (amended): the empty input decodes to the all-default record
(every field the empty string, including `raw_metar`).  In every
non-empty report, each field whose data is absent from the input — no
token matched that field's pattern — is the empty string: station
identifier (when no token remains for it), observation time, wind,
visibility, weather, temperature, dewpoint and altimeter (and the
never-assigned flight category); the one exception is the cloud field,
`"Sky conditions not reported"` whenever no cloud token appears (the
summary is always generated).  The record for `"KJFK"` exhibits the
defaults concretely. -/
theorem c5_amended :
    decode_metar "" = some ({} : DecodedMetar) ∧
    (∀ tokens d, tokens ≠ [] → decodeTokens tokens = some d →
      (dropReportType tokens = [] → d.airport = "") ∧
      ((∀ t, (stationRest tokens).head? = some t → timeGate t.data = false) →
        d.observation_time = "") ∧
      ((∀ t, (windInput tokens).head? = some t → windGate t.data = false) →
        d.wind = "") ∧
      ((spanVis (visInput tokens)).1 = [] → d.visibility = "") ∧
      ((∀ t ∈ classifyInput tokens, isWeatherTok t.data = false) →
        d.weather = "") ∧
      ((∀ t ∈ classifyInput tokens, isTempTok t.data = false) →
        d.temperature = "" ∧ d.dewpoint = "") ∧
      ((∀ t ∈ classifyInput tokens, (isAltATok t.data || isAltQTok t.data) = false) →
        d.altimeter = "") ∧
      d.flight_category = "" ∧
      ((∀ t ∈ classifyInput tokens, isCloudTok t.data = false) →
        d.clouds = "Sky conditions not reported")) ∧
    decode_metar "KJFK" = some { airport := "KJFK",
                                 clouds := "Sky conditions not reported",
                                 raw_metar := "KJFK",
                                 summary := "Current conditions." } := by
  refine ⟨by decide, ?_, by decide⟩
  intro tokens d h1 h2
  obtain ⟨eo, ew, ewe, ecl, ete, ede, eal, efc, evis, eair⟩ :=
    decodeTokens_fields tokens d h1 h2
  refine ⟨eair, ?_, ?_, evis, ?_, ?_, ?_, efc, ?_⟩
  · intro hno
    rw [eo]
    exact takeObsTime_absent _ hno
  · intro hno
    rw [ew]
    exact takeWind_absent _ hno
  · intro hno
    rw [ewe, classify_no_weather _ _ hno]
    rfl
  · intro hno
    have hc := classify_no_temp (classifyInput tokens) {} hno
    exact ⟨by rw [ete, hc.1], by rw [ede, hc.2]⟩
  · intro hno
    rw [eal, classify_no_alt _ _ hno]
  · intro hno
    rw [ecl, classify_no_cloud _ _ hno]
    rfl

/-- C5 (amended, witness): the per-field clauses applied to the token
list `["KJFK"]`, whose single token matches no field pattern. -/
theorem c5_amended_witness :
    ({ airport := "KJFK", clouds := "Sky conditions not reported",
       summary := "Current conditions." } : DecodedMetar).weather = "" ∧
    ({ airport := "KJFK", clouds := "Sky conditions not reported",
       summary := "Current conditions." } : DecodedMetar).wind = "" ∧
    ({ airport := "KJFK", clouds := "Sky conditions not reported",
       summary := "Current conditions." } : DecodedMetar).clouds =
      "Sky conditions not reported" := by
  have h := c5_amended.2.1 ["KJFK"]
    { airport := "KJFK", clouds := "Sky conditions not reported",
      summary := "Current conditions." } (by decide) (by decide)
  exact ⟨h.2.2.2.2.1 (by decide), h.2.2.1 (by decide),
    h.2.2.2.2.2.2.2.2 (by decide)⟩

/-! ## Truncation at the remarks marker (for C8) -/

theorem truncRMK_cons_rmk (r : List String) : truncRMK ("RMK" :: r) = [] := by
  simp [truncRMK]

theorem truncRMK_cons (t : String) (r : List String) (ht : t ≠ "RMK") :
    truncRMK (t :: r) = t :: truncRMK r := by
  simp [truncRMK, List.takeWhile_cons, ht]

theorem classify_trunc (ts : List String) (st : CState) :
    classify (truncRMK ts) st = classify ts st := by
  induction ts generalizing st with
  | nil => rfl
  | cons t r ih =>
    by_cases ht : t = "RMK"
    · subst ht
      rw [truncRMK_cons_rmk]
      rfl
    · rw [truncRMK_cons t r ht]
      simp only [classify]
      split_ifs <;> first | rfl | exact ih _

theorem visClassify_trunc (ts : List String) :
    visClassify (truncRMK ts) = visClassify ts := by
  induction ts with
  | nil => rfl
  | cons t r ih =>
    by_cases ht : t = "RMK"
    · subst ht
      rw [truncRMK_cons_rmk]
      rfl
    · rw [truncRMK_cons t r ht]
      cases hg : visGate t.data with
      | true =>
        have e1 := congrArg Prod.fst ih
        have e2 := congrArg Prod.snd ih
        simp only [visClassify] at e1 e2
        simp only [visClassify, spanVis, hg, if_true]
        rw [e1, e2]
      | false =>
        simp only [visClassify, spanVis, hg, Bool.false_eq_true, if_false]
        rw [← truncRMK_cons t r ht, classify_trunc]

theorem windVis_trunc (ts : List String) : windVis (truncRMK ts) = windVis ts := by
  cases ts with
  | nil => rfl
  | cons t r =>
    by_cases ht : t = "RMK"
    · subst ht
      rw [truncRMK_cons_rmk]
      rfl
    · rw [truncRMK_cons t r ht]
      cases hg : windGate t.data with
      | false =>
        simp only [windVis, takeWind, hg, Bool.false_eq_true, if_false]
        rw [← truncRMK_cons t r ht, visClassify_trunc]
      | true =>
        cases r with
        | nil => rfl
        | cons u r2 =>
          by_cases hu : u = "RMK"
          · subst hu
            rw [truncRMK_cons_rmk]
            simp only [windVis, takeWind, hg, if_true,
              show windVarGate ("RMK" : String).data = false from rfl,
              Bool.false_eq_true, if_false]
            rw [show visClassify ("RMK" :: r2) = ([], ({} : CState)) from rfl]
            rfl
          · rw [truncRMK_cons u r2 hu]
            simp only [windVis, takeWind, hg, if_true]
            cases hv : windVarGate u.data with
            | true =>
              simp only [hv, if_true]
              rw [visClassify_trunc r2]
            | false =>
              simp only [hv, Bool.false_eq_true, if_false]
              rw [← truncRMK_cons u r2 hu, visClassify_trunc]

theorem autoWindVis_trunc (ts : List String) :
    autoWindVis (truncRMK ts) = autoWindVis ts := by
  cases ts with
  | nil => rfl
  | cons t r =>
    by_cases ht : t = "RMK"
    · subst ht
      rw [truncRMK_cons_rmk]
      rfl
    · rw [truncRMK_cons t r ht]
      by_cases ha : t = "AUTO"
      · subst ha
        simp only [autoWindVis, dropAuto, if_pos rfl]
        exact windVis_trunc r
      · simp only [autoWindVis, dropAuto, if_neg ha]
        rw [← truncRMK_cons t r ht]
        exact windVis_trunc (t :: r)

theorem parseTail_trunc (ts : List String) : parseTail (truncRMK ts) = parseTail ts := by
  cases ts with
  | nil => rfl
  | cons t r =>
    by_cases ht : t = "RMK"
    · subst ht
      rw [truncRMK_cons_rmk]
      rfl
    · rw [truncRMK_cons t r ht]
      cases hg : timeGate t.data with
      | true =>
        simp only [parseTail, takeObsTime, hg, if_true]
        rw [autoWindVis_trunc r]
      | false =>
        simp only [parseTail, takeObsTime, hg, Bool.false_eq_true, if_false]
        rw [← truncRMK_cons t r ht, autoWindVis_trunc]

/-- C8 (counterexample): when the first token is `RMK` it is consumed as
the station identifier, and the tokens after it are still classified — a
visibility or observation-time value positioned after the first `RMK`
appears in the decoded report. -/
theorem c8_counterexample :
    (decode_metar "RMK 10SM").map DecodedMetar.visibility =
      some "Visibility 10 miles or more (excellent)" ∧
    (decode_metar "RMK 251200Z").map DecodedMetar.observation_time =
      some "Day 25 at 12:00 UTC" := by decide

/-- C8 (amended): provided the token in station-identifier position (the
first token, or the second when the first is a `METAR`/`SPECI` marker) is
not `RMK`, decoding a token sequence gives the same record as decoding
its truncation at the first `RMK`: no token after the first remarks
marker contributes to any decoded field. -/
theorem c8_amended (tokens : List String)
    (h : (dropReportType tokens).head? ≠ some "RMK") :
    decodeTokens tokens = decodeTokens (truncRMK tokens) := by
  cases tokens with
  | nil => rfl
  | cons t r =>
    by_cases hm : t = "METAR" ∨ t = "SPECI"
    · have htR : t ≠ "RMK" := by rcases hm with rfl | rfl <;> decide
      have hd1 : dropReportType (t :: r) = r := by
        simp [dropReportType, hm]
      have hd2 : dropReportType (t :: truncRMK r) = truncRMK r := by
        simp [dropReportType, hm]
      rw [hd1] at h
      rw [truncRMK_cons t r htR]
      simp only [decodeTokens, hd1, hd2, List.isEmpty_cons, Bool.false_eq_true,
        if_false]
      cases r with
      | nil => rfl
      | cons a r2 =>
        have ha : a ≠ "RMK" := by
          intro e
          exact h (by simp [e])
        rw [truncRMK_cons a r2 ha]
        simp only [takeAirport]
        rw [parseTail_trunc r2]
    · have hd1 : dropReportType (t :: r) = t :: r := by
        simp [dropReportType, hm]
      have htR : t ≠ "RMK" := by
        intro e
        apply h
        rw [hd1, e]
        rfl
      have hd2 : dropReportType (t :: truncRMK r) = t :: truncRMK r := by
        simp [dropReportType, hm]
      rw [truncRMK_cons t r htR]
      simp only [decodeTokens, hd1, hd2, List.isEmpty_cons, Bool.false_eq_true,
        if_false, takeAirport]
      rw [parseTail_trunc r]

/-- C8 (amended, witness): the truncation theorem applied to a sequence
whose remarks section contains a decodable temperature token. -/
theorem c8_amended_witness :
    decodeTokens ["KJFK", "TSRA", "RMK", "20/10"] =
      decodeTokens (truncRMK ["KJFK", "TSRA", "RMK", "20/10"]) :=
  c8_amended ["KJFK", "TSRA", "RMK", "20/10"] (by decide)

/-! ## Descriptor-only weather tokens (for C10) -/

theorem desc_not_last (a b : Char) (h : descCode a b = true) :
    lastCode a b = false := by
  simp only [descCode, Bool.or_eq_true, Bool.and_eq_true, beq_iff_eq, or_assoc] at h
  rcases h with hc | hc | hc | hc | hc | hc | hc | hc <;> rw [hc.1, hc.2] <;> decide

theorem descStar_lastPlus (l : List Char) (h : descStar l = true) :
    lastPlus l = false := by
  cases l with
  | nil => rfl
  | cons a r =>
    cases r with
    | nil => simp [descStar] at h
    | cons b r2 =>
      simp only [descStar, Bool.and_eq_true] at h
      simp [lastPlus, lastStar, desc_not_last a b h.1]

theorem descStar_weatherTail (l : List Char) (h1 : descStar l = true)
    (h2 : l ≠ []) : weatherTail l = false := by
  cases l with
  | nil => exact absurd rfl h2
  | cons a r =>
    cases r with
    | nil => simp [descStar] at h1
    | cons b r2 =>
      have hlp := descStar_lastPlus _ h1
      simp only [descStar, Bool.and_eq_true] at h1
      have hlp2 := descStar_lastPlus _ h1.2
      simp [weatherTail, hlp, hlp2]

theorem descStar_stripIntensity (l : List Char) (h1 : descStar l = true)
    (h2 : l ≠ []) : stripIntensity l = l := by
  cases l with
  | nil => rfl
  | cons a r =>
    cases r with
    | nil => simp [descStar] at h1
    | cons b r2 =>
      simp only [descStar, Bool.and_eq_true] at h1
      have hab := h1.1
      simp only [descCode, Bool.or_eq_true, Bool.and_eq_true, beq_iff_eq, or_assoc] at hab
      rcases hab with hc | hc | hc | hc | hc | hc | hc | hc <;> rw [hc.1, hc.2] <;> rfl

theorem descStar_stripVC (l : List Char) (h1 : descStar l = true)
    (h2 : l ≠ []) : stripVC l = l := by
  cases l with
  | nil => rfl
  | cons a r =>
    cases r with
    | nil => simp [descStar] at h1
    | cons b r2 =>
      simp only [descStar, Bool.and_eq_true] at h1
      have hab := h1.1
      simp only [descCode, Bool.or_eq_true, Bool.and_eq_true, beq_iff_eq, or_assoc] at hab
      rcases hab with hc | hc | hc | hc | hc | hc | hc | hc <;> rw [hc.1, hc.2] <;> rfl

/-- C10: a token made only of an optional intensity or vicinity prefix
followed by a nonempty concatenation of descriptor codes (such as `TS`,
`+TS`, `-SH`) never matches the weather-phenomenon classifier regex,
whose final group requires at least one precipitation, obscuration or
other code; accordingly, such tokens leave the decoded weather field
unchanged. -/
theorem c10_descriptor_only_not_weather (pre : String) (d : List Char)
    (hpre : pre ∈ (["", "-", "+", "VC", "-VC", "+VC"] : List String))
    (h1 : descStar d = true) (h2 : d ≠ []) :
    isWeatherTok (pre.data ++ d) = false ∧
    (decodeTokens ["KJFK", "TS"]).map DecodedMetar.weather = some "" ∧
    (decodeTokens ["KJFK", "+TS"]).map DecodedMetar.weather = some "" ∧
    (decodeTokens ["KJFK", "-SH"]).map DecodedMetar.weather = some "" := by
  refine ⟨?_, by decide, by decide, by decide⟩
  have hsi := descStar_stripIntensity d h1 h2
  have hsv := descStar_stripVC d h1 h2
  have hwt := descStar_weatherTail d h1 h2
  simp only [List.mem_cons, List.not_mem_nil, or_false] at hpre
  rcases hpre with rfl | rfl | rfl | rfl | rfl | rfl
  · show weatherTail (stripVC (stripIntensity d)) = false
    rw [hsi, hsv]
    exact hwt
  · show weatherTail (stripVC (stripIntensity ('-' :: d))) = false
    rw [show stripIntensity ('-' :: d) = d from rfl, hsv]
    exact hwt
  · show weatherTail (stripVC (stripIntensity ('+' :: d))) = false
    rw [show stripIntensity ('+' :: d) = d from rfl, hsv]
    exact hwt
  · show weatherTail (stripVC (stripIntensity ('V' :: 'C' :: d))) = false
    rw [show stripIntensity ('V' :: 'C' :: d) = 'V' :: 'C' :: d from rfl,
      show stripVC ('V' :: 'C' :: d) = d from rfl]
    exact hwt
  · show weatherTail (stripVC (stripIntensity ('-' :: 'V' :: 'C' :: d))) = false
    rw [show stripIntensity ('-' :: 'V' :: 'C' :: d) = 'V' :: 'C' :: d from rfl,
      show stripVC ('V' :: 'C' :: d) = d from rfl]
    exact hwt
  · show weatherTail (stripVC (stripIntensity ('+' :: 'V' :: 'C' :: d))) = false
    rw [show stripIntensity ('+' :: 'V' :: 'C' :: d) = 'V' :: 'C' :: d from rfl,
      show stripVC ('V' :: 'C' :: d) = d from rfl]
    exact hwt

/-- C10 (witness): the theorem applied to the prefix `+` and the
descriptor code `TS`. -/
theorem c10_descriptor_only_not_weather_witness :
    isWeatherTok (("+" : String).data ++ ['T', 'S']) = false :=
  (c10_descriptor_only_not_weather "+" ['T', 'S'] (by decide) (by decide)
    (by decide)).1

end KKMetar

